import Mathlib

/-!
Shallow embedding of the request/authentication pipeline of the
`hotmart_python` client (`src/hotmart_python/hotmart.py`).

Modelling conventions:
* Decoded JSON / Python values are `JValue`; the Python value `None` and
  JSON `null` are both `JValue.null`.
* Python exceptions become `Except PyError`; `requests` HTTP errors carry
  their status code.
* The network is a `World`: an oracle `net` giving the outcome of the n-th
  HTTP call, plus the log `calls` of requests issued so far.  Each call to
  `_make_request` issues exactly one HTTP call.
* `time.time()` is an explicit `now : Int` argument.
* Logging is not modelled (it does not affect values or state).
-/

/-- A decoded JSON value / Python object, as `_handle_response` and
`_fetch_new_token` inspect them. -/
inductive JValue where
  | null : JValue
  | bool : Bool → JValue
  | num : Int → JValue
  | str : String → JValue
  | list : List JValue → JValue
  | dict : List (String × JValue) → JValue
deriving Repr

/-- Python exceptions raised by the pipeline. -/
inductive PyError where
  | valueError : String → PyError
  | keyError : String → PyError
  | typeError : PyError
  | httpError : Nat → PyError
  | transportError : PyError
deriving Repr, DecidableEq

/-- Python dict lookup on an association list (keys are unique in a
Python dict; first match). -/
def dlookup (k : String) : List (String × JValue) → Option JValue
  | [] => none
  | (k', v) :: rest => if k' = k then some v else dlookup k rest

/-- Python truthiness of a value (`if x:`). -/
def truthy : JValue → Bool
  | .null => false
  | .bool b => b
  | .num n => n != 0
  | .str s => s != ""
  | .list l => !l.isEmpty
  | .dict d => !d.isEmpty

/-- `x is None` test. -/
def isNull : JValue → Bool
  | .null => true
  | _ => false

/-- Python `v[k]` with a string key: dict lookup, `KeyError` when the key is
absent, `TypeError` on any non-dict. -/
def subscriptStr (v : JValue) (k : String) : Except PyError JValue :=
  match v with
  | .dict d =>
    match dlookup k d with
    | some x => .ok x
    | none => .error (.keyError k)
  | _ => .error .typeError

/-- Python `str(v)`, used only to format the `Bearer` header; the claims
never inspect header text, so container rendering is approximate. -/
def pyStr : JValue → String
  | .null => "None"
  | .bool b => if b then "True" else "False"
  | .num n => toString n
  | .str s => s
  | .list _ => "[...]"
  | .dict _ => "{...}"

/-- Truthiness of the `enhance` argument (`None`, `False` or `True`). -/
def enhanceTruthy : Option Bool → Bool
  | none => false
  | some b => b

/-- `Hotmart._handle_response(response, enhance)`.  Mirrors the Python
control flow: in the `enhance` branch, `response["items"]` raises
`KeyError` when the key is missing (caught, yielding `[response]`), and a
present-but-falsy value falls through to the `"lessons"` check; if every
branch falls through, `ValueError` is raised (not caught). -/
def handle_response (response : JValue) (enhance : Option Bool := some true) :
    Except PyError JValue :=
  if enhanceTruthy enhance then
    match response with
    | .dict d =>
      match dlookup "items" d with
      | none => .ok (.list [response])
      | some items =>
        if truthy items then .ok items
        else
          match dlookup "lessons" d with
          | none => .ok (.list [response])
          | some lessons =>
            if truthy lessons then .ok lessons
            else .error (.valueError
              "Response must be a dictionary or a list of dictionaries.")
    | .list _ => .ok response
    | _ => .error (.valueError
        "Response must be a dictionary or a list of dictionaries.")
  else
    match response with
    | .dict _ => .ok (.list [response])
    | .list _ => .ok response
    | _ => .error (.valueError
        "Response must be a dictionary or a list of dictionaries.")

/-- The HTTP verbs `_request_with_token` can dispatch
(`requests.get/post/patch/delete`). -/
inductive Verb where
  | get | post | patch | delete
deriving Repr, DecidableEq

/-- One HTTP request as issued by `_make_request`. -/
structure Request where
  verb : Verb
  url : String
  headers : List (String × String)
  params : Option (List (String × JValue))
  body : Option (List (String × JValue))
deriving Repr

/-- Outcome of one HTTP call: a response (status code and decoded JSON
body), or a transport-level failure (`requests` exception other than
`HTTPError`). -/
inductive NetOutcome where
  | resp : Nat → JValue → NetOutcome
  | transportError : NetOutcome
deriving Repr

/-- The external world: `net n` is the outcome of the n-th HTTP call
issued, `calls` the log of requests issued so far. -/
structure World where
  net : Nat → NetOutcome
  calls : List Request

/-- Issue one HTTP call: consult the oracle and log the request. -/
def http_call (w : World) (req : Request) : NetOutcome × World :=
  (w.net w.calls.length, { w with calls := w.calls ++ [req] })

/-- `Hotmart._make_request`: issues exactly one HTTP call; returns the
decoded body iff the status is exactly `requests.codes.ok` (200);
`raise_for_status` raises `HTTPError` exactly for 4xx/5xx (the `except`
block only logs and re-raises); any other status falls through and the
function returns Python `None`. -/
def make_request (w : World) (verb : Verb) (url : String)
    (headers : List (String × String))
    (params : Option (List (String × JValue)))
    (body : Option (List (String × JValue))) :
    Except PyError JValue × World :=
  let out := http_call w { verb := verb, url := url, headers := headers,
                           params := params, body := body }
  match out.1 with
  | .transportError => (.error .transportError, out.2)
  | .resp status respBody =>
    if status = 200 then (.ok respBody, out.2)
    else if 400 ≤ status ∧ status < 600 then (.error (.httpError status), out.2)
    else (.ok .null, out.2)

/-- The instance state of a `Hotmart` client (`__init__` fields; the
token cache holds a Python value, `.null` meaning `None`). -/
structure ClientState where
  id : String
  secret : String
  basic : String
  sandbox : Bool
  api_version : Nat
  token_cache : JValue
  token_expires_at : Option Int
  token_found_in_cache : Bool
deriving Repr

/-- `Hotmart.__init__`. -/
def Hotmart.init (client_id client_secret basic : String)
    (api_version : Nat := 1) (sandbox : Bool := false) : ClientState :=
  { id := client_id, secret := client_secret, basic := basic,
    sandbox := sandbox, api_version := api_version,
    token_cache := .null, token_expires_at := none,
    token_found_in_cache := false }

/-- The fixed OAuth token endpoint. -/
def token_url : String := "https://api-sec-vlc.hotmart.com/security/oauth/token"

/-- `Hotmart._is_token_expired`:
`token_expires_at is not None and token_expires_at < time.time()`. -/
def is_token_expired (s : ClientState) (now : Int) : Bool :=
  match s.token_expires_at with
  | none => false
  | some t => t < now

/-- `Hotmart._fetch_new_token`: POST to the auth endpoint with the basic
header and client-credentials payload, then `response["access_token"]`. -/
def fetch_new_token (s : ClientState) (w : World) :
    Except PyError JValue × World :=
  let headers := [("Authorization", s.basic)]
  let payload := [("grant_type", JValue.str "client_credentials"),
                  ("client_id", JValue.str s.id),
                  ("client_secret", JValue.str s.secret)]
  match make_request w .post token_url headers (some payload) none with
  | (.error e, w') => (.error e, w')
  | (.ok resp, w') =>
    match subscriptStr resp "access_token" with
    | .error e => (.error e, w')
    | .ok v => (.ok v, w')

/-- `Hotmart._get_token`: cache hit when not expired and the cache is not
`None` (also setting the `token_found_in_cache` flag); otherwise fetch a
new token and, when it `is not None`, store it in the cache. -/
def get_token (s : ClientState) (now : Int) (w : World) :
    Except PyError JValue × ClientState × World :=
  if !is_token_expired s now && !isNull s.token_cache then
    let s' := if !s.token_found_in_cache
              then { s with token_found_in_cache := true } else s
    (.ok s.token_cache, s', w)
  else
    match fetch_new_token s w with
    | (.error e, w') => (.error e, s, w')
    | (.ok tok, w') =>
      if !isNull tok then
        (.ok tok, { s with token_cache := tok, token_found_in_cache := false }, w')
      else
        (.ok tok, s, w')

/-- Python `method.upper()`; the verb names concerned are ASCII, where
per-character uppercasing agrees with Python. -/
def py_upper (s : String) : String := ⟨s.data.map Char.toUpper⟩

/-- The verb table of `_request_with_token` (`method_mapping`). -/
def method_mapping (m : String) : Option Verb :=
  if m = "GET" then some .get
  else if m = "POST" then some .post
  else if m = "PATCH" then some .patch
  else if m = "DELETE" then some .delete
  else none

/-- `Hotmart._request_with_token`: obtain a token first, build the bearer
headers, then validate the verb case-insensitively (raising
`ValueError(f"Unsupported method: {method}")` otherwise), dispatch the
request and normalize the response with the given `enhance`. -/
def request_with_token (s : ClientState) (now : Int) (w : World)
    (method : String) (url : String)
    (enhance : Option Bool := none)
    (body : Option (List (String × JValue)) := none)
    (params : Option (List (String × JValue)) := none) :
    Except PyError JValue × ClientState × World :=
  match get_token s now w with
  | (.error e, s', w') => (.error e, s', w')
  | (.ok token, s', w') =>
    let headers := [("Content-Type", "application/json"),
                    ("Authorization", "Bearer " ++ pyStr token)]
    match method_mapping (py_upper method) with
    | none => (.error (.valueError ("Unsupported method: " ++ method)), s', w')
    | some verb =>
      match make_request w' verb url headers params body with
      | (.error e, w'') => (.error e, s', w'')
      | (.ok resp, w'') =>
        match handle_response resp enhance with
        | .error e => (.error e, s', w'')
        | .ok out => (.ok out, s', w'')

/-- Client states reachable from a freshly constructed client through the
token/request operations. -/
inductive Reachable : ClientState → Prop where
  | init : ∀ cid cs basic ver sb, Reachable (Hotmart.init cid cs basic ver sb)
  | stepToken : ∀ s now w, Reachable s → Reachable (get_token s now w).2.1
  | stepRequest : ∀ s now w m url e b p, Reachable s →
      Reachable (request_with_token s now w m url e b p).2.1

/-- Whether an `Except` result is a success (used to state that a call does
not fail). -/
def exceptIsOk : Except PyError JValue → Bool
  | .ok _ => true
  | .error _ => false

/-- The authentication request `_fetch_new_token` issues for the given
credentials. -/
def auth_request (cid cs basic : String) : Request :=
  { verb := .post, url := token_url,
    headers := [("Authorization", basic)],
    params := some [("grant_type", JValue.str "client_credentials"),
                    ("client_id", JValue.str cid),
                    ("client_secret", JValue.str cs)],
    body := none }

/-- A network oracle answering every call with a successful token
response (used to instantiate theorems at concrete inputs). -/
def demo_net : Nat → NetOutcome :=
  fun _ => .resp 200 (.dict [("access_token", JValue.str "tok")])

/-- A fresh world over `demo_net`. -/
def demo_world : World := ⟨demo_net, []⟩

/-- A freshly constructed client. -/
def demo_client : ClientState := Hotmart.init "cid" "cs" "basic"

/-- C9: when `enhance` is omitted at `_request_with_token` it defaults to
`None` (modelled by the `:= none` default of `request_with_token`), and
`_handle_response` treats `None` exactly like `False`: every mapping body
yields the one-element list `[body]` and every list body is returned
unchanged. -/
theorem enhance_none_behaves_like_false :
    (∀ response : JValue,
      handle_response response none = handle_response response (some false)) ∧
    (∀ d : List (String × JValue),
      handle_response (.dict d) none = .ok (.list [.dict d])) ∧
    (∀ l : List JValue, handle_response (.list l) none = .ok (.list l)) :=
  ⟨fun _ => rfl, fun _ => rfl, fun _ => rfl⟩

/-- C10: with `enhance=true`, a mapping lacking an `"items"` key — even one
with a `"lessons"` key — hits the `KeyError` fallback and is wrapped as
`[body]`; when a truthy `"items"` value is present it is always the result
(so `"lessons"` cannot be extracted then); the `"lessons"` value is
extracted exactly when `"items"` is present but falsy and `"lessons"` is
truthy. -/
theorem missing_items_wraps_and_lessons_needs_falsy_items :
    (∀ d : List (String × JValue), dlookup "items" d = none →
      handle_response (.dict d) (some true) = .ok (.list [.dict d])) ∧
    (∀ (d : List (String × JValue)) (items : JValue),
      dlookup "items" d = some items → truthy items = true →
      handle_response (.dict d) (some true) = .ok items) ∧
    (∀ (d : List (String × JValue)) (items lessons : JValue),
      dlookup "items" d = some items → truthy items = false →
      dlookup "lessons" d = some lessons → truthy lessons = true →
      handle_response (.dict d) (some true) = .ok lessons) := by
  refine ⟨?_, ?_, ?_⟩
  · intro d h
    simp [handle_response, enhanceTruthy, h]
  · intro d items h ht
    simp [handle_response, enhanceTruthy, h, ht]
  · intro d items lessons h ht hl htl
    simp [handle_response, enhanceTruthy, h, ht, hl, htl]

/-- Witness for C10 at concrete envelopes. -/
theorem missing_items_wraps_and_lessons_needs_falsy_items_witness :
    handle_response (.dict [("lessons", .list [.num 1])]) (some true)
      = .ok (.list [.dict [("lessons", .list [.num 1])]]) ∧
    handle_response (.dict [("items", .list [.num 2])]) (some true)
      = .ok (.list [.num 2]) ∧
    handle_response (.dict [("items", .list []), ("lessons", .list [.num 7])])
        (some true) = .ok (.list [.num 7]) :=
  ⟨missing_items_wraps_and_lessons_needs_falsy_items.1 _ rfl,
   missing_items_wraps_and_lessons_needs_falsy_items.2.1 _ _ rfl rfl,
   missing_items_wraps_and_lessons_needs_falsy_items.2.2 _ _ _ rfl rfl rfl rfl⟩

/-- C6 counterexample: the envelope `{"lessons": [1]}` contains the
recognized collection field `"lessons"`, yet `_handle_response` with
`enhance=true` does not return its contents `[1]`: the missing `"items"`
key raises `KeyError`, which is caught and yields `[body]` instead. -/
theorem lessons_without_items_not_extracted :
    handle_response (.dict [("lessons", .list [.num 1])]) (some true)
      = .ok (.list [.dict [("lessons", .list [.num 1])]]) ∧
    (Except.ok (JValue.list [.dict [("lessons", .list [.num 1])]])
      : Except PyError JValue) ≠ .ok (.list [.num 1]) := by
  exact ⟨rfl, by simp⟩

/-- C6 amended: with `enhance=true`, an envelope whose `"items"` value is
truthy yields exactly that value (in particular the spec's example
`{"items": [a, b], "page_info": …} ↦ [a, b]`); but `"lessons"` alone is
not a recognized entry point — extraction looks at `"items"` first, and a
mapping lacking both `"items"` and `"lessons"` (indeed, lacking `"items"`
at all) falls back to wrapping the whole body as `[body]`. -/
theorem enhance_true_items_extraction :
    (∀ (d : List (String × JValue)) (items : JValue),
      dlookup "items" d = some items → truthy items = true →
      handle_response (.dict d) (some true) = .ok items) ∧
    (∀ (a b pageInfo : JValue),
      handle_response (.dict [("items", .list [a, b]), ("page_info", pageInfo)])
        (some true) = .ok (.list [a, b])) ∧
    (∀ d : List (String × JValue),
      dlookup "items" d = none → dlookup "lessons" d = none →
      handle_response (.dict d) (some true) = .ok (.list [.dict d])) := by
  refine ⟨?_, ?_, ?_⟩
  · intro d items h ht
    simp [handle_response, enhanceTruthy, h, ht]
  · intro a b pageInfo
    simp [handle_response, enhanceTruthy, dlookup, truthy]
  · intro d h _
    simp [handle_response, enhanceTruthy, h]

/-- Witness for C6 (amended) at concrete envelopes. -/
theorem enhance_true_items_extraction_witness :
    handle_response (.dict [("items", .list [.num 3])]) (some true)
      = .ok (.list [.num 3]) ∧
    handle_response (.dict [("items", .list [.num 1, .num 2]),
        ("page_info", .dict [("page", .num 1)])]) (some true)
      = .ok (.list [.num 1, .num 2]) ∧
    handle_response (.dict [("id", .num 9)]) (some true)
      = .ok (.list [.dict [("id", .num 9)]]) :=
  ⟨enhance_true_items_extraction.1 _ _ rfl rfl,
   enhance_true_items_extraction.2.1 _ _ _,
   enhance_true_items_extraction.2.2 _ rfl rfl⟩

/-- C5: a successful authentication response that carries only
`access_token` (no expiry field) is accepted: `_fetch_new_token` reads only
`response["access_token"]`, raises nothing, and `_get_token` caches the
token while `token_expires_at` stays `None` — contrary to the specified
`AuthResponseMalformed` failure. -/
theorem missing_expiry_token_cached_without_error :
    (get_token (Hotmart.init "cid" "cs" "basic") 0
      ⟨fun _ => .resp 200 (.dict [("access_token", .str "tok")]), []⟩).1
      = .ok (.str "tok") ∧
    (get_token (Hotmart.init "cid" "cs" "basic") 0
      ⟨fun _ => .resp 200 (.dict [("access_token", .str "tok")]), []⟩).2.1.token_cache
      = .str "tok" ∧
    (get_token (Hotmart.init "cid" "cs" "basic") 0
      ⟨fun _ => .resp 200 (.dict [("access_token", .str "tok")]), []⟩).2.1.token_expires_at
      = none :=
  ⟨rfl, rfl, rfl⟩

/-- `_get_token` never writes `token_expires_at` on any path. -/
theorem get_token_preserves_expiry (s : ClientState) (now : Int) (w : World) :
    ((get_token s now w).2.1).token_expires_at = s.token_expires_at := by
  unfold get_token
  split
  · split <;> rfl
  · split
    · rfl
    · split <;> rfl

/-- The state after `_request_with_token` is the state after its
`_get_token` call: no later step mutates the client. -/
theorem request_with_token_state_eq (s : ClientState) (now : Int) (w : World)
    (m url : String) (e : Option Bool) (b p : Option (List (String × JValue))) :
    (request_with_token s now w m url e b p).2.1 = (get_token s now w).2.1 := by
  unfold request_with_token
  split
  · rename_i e' s' w' heq
    rw [heq]
  · rename_i tok s' w' heq
    rw [heq]
    dsimp only
    split
    · rfl
    · split
      · rfl
      · split <;> rfl

/-- C2 counterexample: in a state whose stored expiry equals the current
instant, `_is_token_expired` is false (strict `<`), so `_get_token`
returns the cached token even though its stored expiry has not
`expiry > now`: the claim fails at the boundary `expiry = now`. -/
theorem stored_expiry_at_now_token_still_returned :
    (get_token { Hotmart.init "cid" "cs" "b" with
        token_cache := .str "tok", token_expires_at := some 0 } 0
        ⟨fun _ => .transportError, []⟩).1 = .ok (.str "tok") ∧
    (get_token { Hotmart.init "cid" "cs" "b" with
        token_cache := .str "tok", token_expires_at := some 0 } 0
        ⟨fun _ => .transportError, []⟩).2.1.token_expires_at = some 0 ∧
    ¬ ((0 : Int) > 0) :=
  ⟨rfl, rfl, by decide⟩

/-- C2 amended: the code never assigns `token_expires_at`, so in every
state reachable from a freshly constructed client it is `None`, before and
after any `_get_token` call — the manager never holds (hence never
returns) a token with a stored expiry instant at all, and the invariant
"no returned token has a passed stored expiry" holds vacuously on
reachable states.  (On artificial states with a stored expiry it can
fail, as the counterexample shows.) -/
theorem reachable_state_never_stores_expiry (s : ClientState)
    (h : Reachable s) :
    s.token_expires_at = none ∧
    ∀ (now : Int) (w : World),
      ((get_token s now w).2.1).token_expires_at = none := by
  have key : s.token_expires_at = none := by
    induction h with
    | init cid cs basic ver sb => rfl
    | stepToken s now w hs ih =>
      rw [get_token_preserves_expiry]
      exact ih
    | stepRequest s now w m url e b p hs ih =>
      rw [request_with_token_state_eq, get_token_preserves_expiry]
      exact ih
  refine ⟨key, fun now w => ?_⟩
  rw [get_token_preserves_expiry]
  exact key

/-- Witness for C2 (amended) at a concrete reachable state. -/
theorem reachable_state_never_stores_expiry_witness :
    ((get_token (Hotmart.init "cid" "cs" "b") 0
      ⟨fun _ => .transportError, []⟩).2.1).token_expires_at = none :=
  (reachable_state_never_stores_expiry _
    (Reachable.init "cid" "cs" "b" 1 false)).2 0 ⟨fun _ => .transportError, []⟩

/-- C8: when the cache cannot serve the call and the token fetch fails
with any error, `_get_token` re-raises that error and the client state —
in particular `token_cache` and `token_expires_at` — is exactly what it
was before the call. -/
theorem failed_fetch_leaves_state_unchanged (s : ClientState) (now : Int)
    (w : World) (e : PyError)
    (hmiss : (!is_token_expired s now && !isNull s.token_cache) = false)
    (hfail : (fetch_new_token s w).1 = .error e) :
    (get_token s now w).1 = .error e ∧
    (get_token s now w).2.1 = s ∧
    (get_token s now w).2.1.token_cache = s.token_cache ∧
    (get_token s now w).2.1.token_expires_at = s.token_expires_at := by
  unfold get_token
  rw [if_neg (by simp [hmiss])]
  cases hf : fetch_new_token s w with
  | mk r w' =>
    rw [hf] at hfail
    dsimp only at hfail
    subst hfail
    exact ⟨rfl, rfl, rfl, rfl⟩

/-- Witness for C8: a transport failure on the first fetch leaves a fresh
client untouched and propagates. -/
theorem failed_fetch_leaves_state_unchanged_witness :
    (get_token (Hotmart.init "cid" "cs" "b") 0
      ⟨fun _ => .transportError, []⟩).1 = .error .transportError ∧
    (get_token (Hotmart.init "cid" "cs" "b") 0
      ⟨fun _ => .transportError, []⟩).2.1 = Hotmart.init "cid" "cs" "b" ∧
    (get_token (Hotmart.init "cid" "cs" "b") 0
      ⟨fun _ => .transportError, []⟩).2.1.token_cache
      = (Hotmart.init "cid" "cs" "b").token_cache ∧
    (get_token (Hotmart.init "cid" "cs" "b") 0
      ⟨fun _ => .transportError, []⟩).2.1.token_expires_at
      = (Hotmart.init "cid" "cs" "b").token_expires_at :=
  failed_fetch_leaves_state_unchanged (Hotmart.init "cid" "cs" "b") 0
    ⟨fun _ => .transportError, []⟩ .transportError rfl rfl

/-- On a cache miss whose fetch succeeds with a non-`None` token,
`_get_token` returns the token and stores it. -/
theorem get_token_fetch_ok (s : ClientState) (now : Int) (w : World)
    (tok : JValue) (w' : World)
    (hcond : (!is_token_expired s now && !isNull s.token_cache) = false)
    (hfetch : fetch_new_token s w = (.ok tok, w'))
    (hnn : isNull tok = false) :
    get_token s now w =
      (.ok tok, { s with token_cache := tok, token_found_in_cache := false },
       w') := by
  unfold get_token
  split
  · rename_i h
    rw [hcond] at h
    exact absurd h (by simp)
  · rw [hfetch]
    dsimp only
    simp [hnn]

/-- On a cache hit (token present, not expired, flag still unset),
`_get_token` returns the cached token, sets the flag and issues no
HTTP call. -/
theorem get_token_hit (s : ClientState) (now : Int) (w : World)
    (hcond : (!is_token_expired s now && !isNull s.token_cache) = true)
    (hflag : s.token_found_in_cache = false) :
    get_token s now w =
      (.ok s.token_cache, { s with token_found_in_cache := true }, w) := by
  unfold get_token
  split
  · simp [hflag]
  · rename_i h
    exact absurd hcond h

/-- C1: from a fresh client whose credentials are valid (the auth endpoint
answers 200 with an `access_token`), the first `_get_token` call issues
exactly one HTTP call — the auth fetch performed by `_fetch_new_token` —
and stores the token in the cache; a second `_get_token` call before the
token's expiry issues zero additional calls and returns the cached token
unchanged. -/
theorem first_call_fetches_once_then_cache_hit
    (cid cs basic : String) (ver : Nat) (sb : Bool)
    (net : Nat → NetOutcome) (body tok : JValue) (now1 now2 : Int)
    (s0 : ClientState) (w0 : World)
    (hs0 : s0 = Hotmart.init cid cs basic ver sb)
    (hw0 : w0 = ⟨net, []⟩)
    (hnet : net 0 = .resp 200 body)
    (htok : subscriptStr body "access_token" = .ok tok)
    (hnn : isNull tok = false) :
    (get_token s0 now1 w0).1 = .ok tok ∧
    ((get_token s0 now1 w0).2.2).calls.map Request.url = [token_url] ∧
    ((get_token s0 now1 w0).2.1).token_cache = tok ∧
    is_token_expired ((get_token s0 now1 w0).2.1) now2 = false ∧
    (get_token ((get_token s0 now1 w0).2.1) now2
      ((get_token s0 now1 w0).2.2)).1 = .ok tok ∧
    ((get_token ((get_token s0 now1 w0).2.1) now2
      ((get_token s0 now1 w0).2.2)).2.2).calls.map Request.url = [token_url] ∧
    ((get_token ((get_token s0 now1 w0).2.1) now2
      ((get_token s0 now1 w0).2.2)).2.1).token_cache = tok := by
  subst hs0 hw0
  have hfetch : fetch_new_token (Hotmart.init cid cs basic ver sb) ⟨net, []⟩ =
      (.ok tok, ⟨net, [auth_request cid cs basic]⟩) := by
    unfold fetch_new_token make_request http_call
    dsimp only
    rw [show net (List.length ([] : List Request)) = NetOutcome.resp 200 body
      from hnet]
    simp [htok, auth_request, Hotmart.init]
  have h1 := get_token_fetch_ok (Hotmart.init cid cs basic ver sb) now1
    ⟨net, []⟩ tok ⟨net, [auth_request cid cs basic]⟩ rfl hfetch hnn
  have hcond1 : (!is_token_expired
      ({ Hotmart.init cid cs basic ver sb with
          token_cache := tok, token_found_in_cache := false }) now2 &&
      !isNull ({ Hotmart.init cid cs basic ver sb with
          token_cache := tok, token_found_in_cache := false }).token_cache)
      = true := by
    show (!false && !isNull tok) = true
    rw [hnn]
    rfl
  have h2 := get_token_hit
    ({ Hotmart.init cid cs basic ver sb with
        token_cache := tok, token_found_in_cache := false }) now2
    (⟨net, [auth_request cid cs basic]⟩ : World) hcond1 rfl
  rw [h1]
  dsimp only
  rw [h2]
  dsimp only
  refine ⟨rfl, rfl, rfl, rfl, rfl, rfl, rfl⟩

/-- Witness for C1 at concrete credentials and a concrete token
response. -/
theorem first_call_fetches_once_then_cache_hit_witness :
    (get_token demo_client 0 demo_world).1 = .ok (.str "tok") ∧
    ((get_token demo_client 0 demo_world).2.2).calls.map Request.url
      = [token_url] ∧
    ((get_token demo_client 0 demo_world).2.1).token_cache = .str "tok" ∧
    is_token_expired ((get_token demo_client 0 demo_world).2.1) 5 = false ∧
    (get_token ((get_token demo_client 0 demo_world).2.1) 5
      ((get_token demo_client 0 demo_world).2.2)).1 = .ok (.str "tok") ∧
    ((get_token ((get_token demo_client 0 demo_world).2.1) 5
      ((get_token demo_client 0 demo_world).2.2)).2.2).calls.map Request.url
      = [token_url] ∧
    ((get_token ((get_token demo_client 0 demo_world).2.1) 5
      ((get_token demo_client 0 demo_world).2.2)).2.1).token_cache
      = .str "tok" :=
  first_call_fetches_once_then_cache_hit "cid" "cs" "basic" 1 false demo_net
    (.dict [("access_token", JValue.str "tok")]) (.str "tok") 0 5
    demo_client demo_world rfl rfl rfl rfl rfl

/-- C3 counterexample: calling `_request_with_token` with the unsupported
verb `"put"` on a fresh client does raise
`ValueError("Unsupported method: put")`, but only after `_get_token` has
already performed a network call (the auth fetch): the call log has
length 1, not 0, so "no network call of any kind is attempted" fails. -/
theorem put_verb_token_fetch_still_attempted :
    (request_with_token demo_client 0 demo_world "put" "https://example.com").1
      = .error (.valueError "Unsupported method: put") ∧
    ((request_with_token demo_client 0 demo_world "put"
      "https://example.com").2.2).calls.map Request.url = [token_url] ∧
    ((request_with_token demo_client 0 demo_world "put"
      "https://example.com").2.2).calls.length ≠ 0 := by
  refine ⟨rfl, rfl, ?_⟩
  rw [show ((request_with_token demo_client 0 demo_world "put"
    "https://example.com").2.2).calls.length = 1 from rfl]
  exact Nat.one_ne_zero

/-- C3 amended: verb matching is case-insensitive over
{GET, POST, PATCH, DELETE}; an unsupported verb makes
`_request_with_token` fail with `ValueError(f"Unsupported method: ...")`
and no resource request is dispatched — but the token acquisition runs
first, so the call log is exactly whatever `_get_token` produced (one auth
fetch on a cold cache), not empty. -/
theorem unsupported_verb_fails_after_token_acquisition
    (s : ClientState) (now : Int) (w : World) (method url : String)
    (enhance : Option Bool) (body params : Option (List (String × JValue)))
    (tok : JValue) (s' : ClientState) (w' : World)
    (hget : get_token s now w = (.ok tok, s', w'))
    (hm : method_mapping (py_upper method) = none) :
    (request_with_token s now w method url enhance body params).1
      = .error (.valueError ("Unsupported method: " ++ method)) ∧
    ((request_with_token s now w method url enhance body params).2.2).calls
      = w'.calls ∧
    (request_with_token s now w method url enhance body params).2.1 = s' := by
  unfold request_with_token
  rw [hget]
  dsimp only
  rw [hm]
  exact ⟨rfl, rfl, rfl⟩

/-- Witness for C3 (amended) at the verb `"put"` on a fresh client. -/
theorem unsupported_verb_fails_after_token_acquisition_witness :
    (request_with_token demo_client 0 demo_world "put" "https://example.com"
      none none none).1
      = .error (.valueError ("Unsupported method: " ++ "put")) :=
  (unsupported_verb_fails_after_token_acquisition demo_client 0 demo_world
    "put" "https://example.com" none none none _ _ _ rfl rfl).1

/-- C4 counterexample: a 201 response with a non-empty JSON body makes
`_make_request` return Python `None`, not the decoded body: the success
test is `status_code == requests.codes.ok` (exactly 200), and
`raise_for_status()` does not raise on 2xx, so the function falls through
and returns `None`. -/
theorem status_201_returns_none_not_body :
    (make_request ⟨fun _ => .resp 201 (.dict [("a", .num 1)]), []⟩ .get
      "https://example.com" [] none none).1 = .ok .null ∧
    (Except.ok JValue.null : Except PyError JValue)
      ≠ .ok (.dict [("a", .num 1)]) :=
  ⟨rfl, by simp⟩

/-- C4 amended: `_make_request` decodes and returns the body only for
status exactly 200; for every other 2xx status it returns `None` (and does
not fail). -/
theorem only_status_200_returns_decoded_body
    (w : World) (verb : Verb) (url : String) (headers : List (String × String))
    (params body : Option (List (String × JValue))) (status : Nat)
    (rbody : JValue)
    (hnet : w.net w.calls.length = .resp status rbody)
    (h2xx : 200 ≤ status ∧ status < 300) :
    (make_request w verb url headers params body).1
      = .ok (if status = 200 then rbody else .null) := by
  unfold make_request http_call
  dsimp only
  rw [hnet]
  by_cases hs : status = 200
  · simp [hs]
  · have hnot : ¬ (400 ≤ status ∧ status < 600) := by omega
    simp [hs, hnot]

/-- Witness for C4 (amended) at status 201. -/
theorem only_status_200_returns_decoded_body_witness :
    (make_request ⟨fun _ => .resp 201 (.dict [("a", .num 1)]), []⟩ .get
      "https://example.com" [] none none).1
      = .ok (if 201 = 200 then JValue.dict [("a", .num 1)] else .null) :=
  only_status_200_returns_decoded_body _ _ _ _ _ _ 201 _ rfl (by omega)

/-- C7 counterexample: status 301 is not a 2xx, yet `_make_request` does
not fail: `raise_for_status()` raises only for 4xx/5xx, so the dispatcher
returns `None` successfully — "for every non-2xx HTTP status, the
dispatcher fails" is false at 301. -/
theorem status_301_does_not_fail :
    (make_request ⟨fun _ => .resp 301 .null, []⟩ .get "https://example.com"
      [] none none).1 = .ok .null ∧
    exceptIsOk (make_request ⟨fun _ => .resp 301 .null, []⟩ .get
      "https://example.com" [] none none).1 = true :=
  ⟨rfl, rfl⟩

/-- C7 amended: for every 4xx/5xx status `_make_request` fails with the
`HTTPError` carrying that status — which the spec taxonomy reads as
`AuthenticationError` for 401/403, `ValidationError` for 422 and
`ServerError` for 5xx — the error propagates (the `except` block only
logs and re-raises), no retry happens (exactly one HTTP call is issued),
and 3xx statuses do not fail at all. -/
theorem http_4xx_5xx_fail_with_status_no_retry
    (w : World) (verb : Verb) (url : String) (headers : List (String × String))
    (params body : Option (List (String × JValue))) (status : Nat)
    (rbody : JValue)
    (hnet : w.net w.calls.length = .resp status rbody)
    (herr : 400 ≤ status ∧ status < 600) :
    (make_request w verb url headers params body).1
      = .error (.httpError status) ∧
    ((make_request w verb url headers params body).2).calls.length
      = w.calls.length + 1 := by
  unfold make_request http_call
  dsimp only
  rw [hnet]
  have hs : ¬ status = 200 := by omega
  simp [hs, herr]

/-- Witness for C7 (amended) at status 401. -/
theorem http_4xx_5xx_fail_with_status_no_retry_witness :
    (make_request ⟨fun _ => .resp 401 .null, []⟩ .get "https://example.com"
      [] none none).1 = .error (.httpError 401) ∧
    ((make_request ⟨fun _ => .resp 401 .null, []⟩ .get "https://example.com"
      [] none none).2).calls.length = ([] : List Request).length + 1 :=
  http_4xx_5xx_fail_with_status_no_retry _ _ _ _ _ _ 401 _ rfl (by omega)
